import Mathlib

/-!
Verification development for the Academic Assignment Helper backend
(`backend/auth.py`, `backend/main.py`, `backend/rag_service.py`,
`backend/file_processor.py`, `backend/models.py`, `backend/config.py`).

The Python code is shallowly embedded: pure functions become Lean
functions, the database session becomes explicit lists of rows, external
collaborators (bcrypt, the JWT library, the OpenAI embedding API, the
pgvector distance operator, the n8n webhook) are modelled symbolically or
passed in as function parameters.  Passwords travel as their UTF-8 byte
sequences (`List Nat`), since both hashing paths in `auth.py` operate on
`password.encode("utf-8")`.
-/

namespace AcademicHelper

/-! ### Configuration (`backend/config.py`) -/

/-- `settings.JWT_SECRET_KEY` from `config.py`. -/
def JWT_SECRET_KEY : String := "academic-helper-jwt-secret-key-2024"

/-- `settings.JWT_EXPIRATION_HOURS` from `config.py`. -/
def JWT_EXPIRATION_HOURS : Nat := 24

/-! ### Password hashing (`backend/auth.py` lines 29-54)

`bcrypt.hashpw` / `bcrypt.checkpw` are an external library; they are
modelled as a perfect keyed digest: the digest is determined by the
(already truncated) password bytes together with the salt, and
`checkpw` recomputes the digest over the candidate bytes with the stored
salt and compares.  This captures exactly the correctness contract of
bcrypt (no collisions are modelled).  The `passlib` fallback in
`verify_password` fires only when `bcrypt.checkpw` raises on a
structurally malformed digest; digests in the model are always
structurally valid, so that branch is unreachable here. -/

/-- Symbolic bcrypt digest: determined by the hashed bytes and the salt. -/
structure BcryptHash where
  pw : List Nat
  salt : Nat
deriving DecidableEq, Repr

/-- Symbolic `bcrypt.hashpw(password_bytes, salt)`. -/
def bcryptHashpw (password : List Nat) (salt : Nat) : BcryptHash :=
  ⟨password, salt⟩

/-- Symbolic `bcrypt.checkpw(password_bytes, digest)`: recompute with the
digest's salt and compare. -/
def bcryptCheckpw (password : List Nat) (h : BcryptHash) : Bool :=
  bcryptHashpw password h.salt == h

/-- The truncation step duplicated inside `verify_password` and
`get_password_hash` (`auth.py` lines 32-34 and 47-49): encode to bytes,
and cut at 72 bytes when longer. -/
def truncateBytes72 (b : List Nat) : List Nat :=
  if b.length > 72 then b.take 72 else b

/-- `verify_password` (`auth.py` lines 29-41), on UTF-8 password bytes. -/
def verify_password (plain_password : List Nat) (hashed_password : BcryptHash) : Bool :=
  bcryptCheckpw (truncateBytes72 plain_password) hashed_password

/-- `get_password_hash` (`auth.py` lines 44-54), on UTF-8 password bytes;
the fresh salt drawn by `bcrypt.gensalt()` is passed explicitly. -/
def get_password_hash (password : List Nat) (salt : Nat) : BcryptHash :=
  bcryptHashpw (truncateBytes72 password) salt

theorem truncateBytes72_eq_take (b : List Nat) : truncateBytes72 b = b.take 72 := by
  unfold truncateBytes72
  split
  · rfl
  · rename_i h
    exact (List.take_of_length_le (by omega)).symm

theorem verify_password_hash_iff (p q : List Nat) (salt : Nat) :
    verify_password p (get_password_hash q salt) = true ↔ p.take 72 = q.take 72 := by
  simp [verify_password, get_password_hash, bcryptCheckpw, bcryptHashpw,
    truncateBytes72_eq_take, BcryptHash.mk.injEq]

/-! ### JWT issuance and validation (`backend/auth.py` lines 57-71 and 84-111)

`python-jose`'s `jwt.encode` / `jwt.decode` are an external library.  They
are modelled symbolically: a token is its claim set plus a MAC, where the
MAC is a perfect message-authentication code determined by the signing
secret and the claims (signature forgery is not modelled, matching the
standard symbolic-crypto treatment).  `jwt.decode` checks the MAC against
the shared secret and then the `exp` claim against the current time,
following RFC 7519 (the current time must be strictly before `exp`);
either failure raises `JWTError`.  Times are seconds since the epoch. -/

/-- The claim set produced by `create_access_token`: the copied `data`
dict contributes the optional `sub`, and lines 65 add `exp` and `role`. -/
structure JwtClaims where
  sub : Option String
  exp : Nat
  role : String
deriving DecidableEq, Repr

/-- Symbolic MAC over the claims: determined by the secret and claims. -/
structure JwtSignature where
  secret : String
  signed : JwtClaims
deriving DecidableEq, Repr

/-- A signed token: claims plus MAC. -/
structure Jwt where
  claims : JwtClaims
  sig : JwtSignature
deriving DecidableEq, Repr

/-- The `data` dict passed to `create_access_token`; callers in `main.py`
always pass `{"sub": student.email}`. -/
structure TokenData where
  sub : Option String
deriving DecidableEq, Repr

/-- `create_access_token` (`auth.py` lines 57-71): expiry is `now`
plus the override delta, else `JWT_EXPIRATION_HOURS` hours; the claims
gain `exp` and `role = "student"` and are signed with the shared secret. -/
def create_access_token (now : Nat) (data : TokenData)
    (expires_delta : Option Nat := none) : Jwt :=
  let expire : Nat :=
    match expires_delta with
    | some d => now + d
    | none => now + JWT_EXPIRATION_HOURS * 3600
  let claims : JwtClaims := ⟨data.sub, expire, "student"⟩
  ⟨claims, ⟨JWT_SECRET_KEY, claims⟩⟩

/-- The two failure modes of symbolic `jwt.decode`; both are subclasses
of `JWTError` in `python-jose`. -/
inductive JwtError where
  | invalidSignature
  | expired
deriving DecidableEq, Repr

/-- Symbolic `jwt.decode(token, secret, algorithms)`: verify the MAC with
the shared secret, then reject when the current time is not strictly
before `exp` (RFC 7519 expiry semantics). -/
def jwtDecode (secret : String) (now : Nat) (t : Jwt) : Except JwtError JwtClaims :=
  if t.sig ≠ ⟨secret, t.claims⟩ then .error .invalidSignature
  else if t.claims.exp ≤ now then .error .expired
  else .ok t.claims

/-! ### Data model (`backend/models.py`) -/

/-- A row of the `students` table (`models.py` lines 9-19). -/
structure Student where
  id : Nat
  email : String
  password_hash : BcryptHash
  full_name : Option String
  student_id : Option String
  created_at : Nat
deriving DecidableEq, Repr

/-- A row of the `assignments` table (`models.py` lines 22-35); the
`student_id` foreign-key column is nullable. -/
structure Assignment where
  id : Nat
  student_id : Option Nat
  filename : String
  original_text : String
  topic : Option String
  academic_level : Option String
  word_count : Nat
  uploaded_at : Nat
deriving DecidableEq, Repr

/-- A row of the `analysis_results` table (`models.py` lines 38-52); the
`assignment_id` foreign-key column and the timestamp are nullable.  The
JSONB payloads (`suggested_sources`, `flagged_sections`) are opaque blobs
written by the external n8n workflow and are carried as strings. -/
structure AnalysisResult where
  id : Nat
  assignment_id : Option Nat
  original_summary : Option String
  suggested_sources : Option String
  plagiarism_score : Option ℚ
  flagged_sections : Option String
  research_suggestions : Option String
  citation_recommendations : Option String
  confidence_score : Option ℚ
  analyzed_at : Option Nat
deriving DecidableEq, Repr

/-- A row of the `academic_sources` table (`models.py` lines 55-67); the
`embedding` vector column is nullable.  Vector components are rationals
standing for the stored floats. -/
structure AcademicSource where
  id : Nat
  title : String
  authors : Option String
  publication_year : Option Int
  abstract : Option String
  full_text : Option String
  source_type : Option String
  url : Option String
  embedding : Option (List ℚ)
deriving DecidableEq, Repr

/-- An HTTP error response raised via `HTTPException`. -/
structure HTTPError where
  status : Nat
  detail : String
deriving DecidableEq, Repr

/-- The single `credentials_exception` of `get_current_student`
(`auth.py` lines 89-93). -/
def credentialsException : HTTPError :=
  ⟨401, "Could not validate credentials"⟩

/-- `get_current_student` (`auth.py` lines 84-111): decode the token
(signature and expiry), read the `sub` claim, and look the email up in
the credential store; every failure raises the one
`credentials_exception`.  The database session is the list of student
rows, and `query(Student).filter(Student.email == email).first()` is the
first row with that email. -/
def get_current_student (db : List Student) (now : Nat) (token : Jwt) :
    Except HTTPError Student :=
  match jwtDecode JWT_SECRET_KEY now token with
  | .error _ => .error credentialsException
  | .ok payload =>
    match payload.sub with
    | none => .error credentialsException
    | some email =>
      match db.find? (fun s => s.email == email) with
      | none => .error credentialsException
      | some student => .ok student

/-! ### Change password (`backend/main.py` lines 241-281)

The endpoint acts on the already-authenticated `current_student` row.
The returned pair is (HTTP outcome, resulting student row): an error
outcome leaves the row as it was, success commits the re-hashed
password.  Passwords are their UTF-8 byte sequences, so `len(...)` in
the Python length check is the byte length. -/

def change_password (old_password new_password : List Nat)
    (current_student : Student) (salt : Nat) :
    Except HTTPError String × Student :=
  if ¬ verify_password old_password current_student.password_hash then
    (.error ⟨401, "Incorrect current password"⟩, current_student)
  else if new_password.length < 6 then
    (.error ⟨400, "Password must be at least 6 characters long"⟩, current_student)
  else if verify_password new_password current_student.password_hash then
    (.error ⟨400, "New password must be different from current password"⟩, current_student)
  else
    (.ok "Password changed successfully",
      { current_student with password_hash := get_password_hash new_password salt })

/-! ### Assignment upload (`backend/main.py` lines 285-348 and
`backend/file_processor.py` line 61-63)

`extract_text_from_file` delegates to PyPDF2 / python-docx / UTF-8
decoding, all external; its outcome (extracted text, or the message of a
raised exception) is a parameter.  The n8n webhook call is external as
well; its outcome is a parameter, and the inner `try` of lines 319-334
catches `httpx.HTTPStatusError` and then every other `Exception`
(timeouts included), so no webhook outcome escapes. -/

/-- `count_words` (`file_processor.py` lines 61-63): Python
`len(text.split())`, the number of maximal whitespace-free runs. -/
def count_words (text : String) : Nat :=
  ((text.split Char.isWhitespace).filter (fun w => w ≠ "")).length

/-- Every possible outcome of the `httpx` post to the n8n webhook. -/
inductive WebhookOutcome where
  | ok
  | httpStatusError (code : Nat) (body : String)
  | timeout
  | otherError (msg : String)
deriving DecidableEq, Repr

/-- The success body returned by `upload_assignment` (lines 336-342). -/
structure UploadResponse where
  message : String
  assignment_id : Nat
  filename : String
  word_count : Nat
  status : String
deriving DecidableEq, Repr

/-- Autoincrement primary key for a fresh `assignments` row. -/
def nextAssignmentId (db : List Assignment) : Nat :=
  (db.map Assignment.id).foldl max 0 + 1

/-- `upload_assignment` (`main.py` lines 285-348).  The pair returned is
(HTTP outcome, resulting assignments table).  When extraction raises,
the outer handler maps it to a 500 and nothing is persisted; otherwise
the row is committed, the webhook is attempted, and lines 327-334 swallow
every webhook failure, so the success body is returned and the committed
row kept regardless of `outcome`. -/
def upload_assignment (extraction : Except String String) (filename : String)
    (current_student : Student) (db : List Assignment) (now : Nat)
    (outcome : WebhookOutcome) : Except HTTPError UploadResponse × List Assignment :=
  match extraction with
  | .error e => (.error ⟨500, "Error processing file: " ++ e⟩, db)
  | .ok text_content =>
    let word_count := count_words text_content
    let assignment : Assignment :=
      { id := nextAssignmentId db
        student_id := some current_student.id
        filename := filename
        original_text := text_content
        topic := none
        academic_level := none
        word_count := word_count
        uploaded_at := now }
    let db := db ++ [assignment]
    -- webhook call: every branch of the inner try only logs
    match outcome with
    | _ =>
      (.ok { message := "Assignment uploaded successfully"
             assignment_id := assignment.id
             filename := filename
             word_count := word_count
             status := "Analysis in progress" }, db)

/-! ### Analysis readers (`backend/main.py` lines 352-437) -/

/-- The response body shared by both analysis endpoints. -/
structure AnalysisResponse where
  id : Nat
  assignment_id : Option Nat
  original_summary : Option String
  suggested_sources : Option String
  plagiarism_score : Option ℚ
  flagged_sections : Option String
  research_suggestions : Option String
  citation_recommendations : Option String
  confidence_score : Option ℚ
  analyzed_at : Option Nat
deriving DecidableEq, Repr

/-- Build the `AnalysisResponse` from a row (lines 375-386 / 426-437);
`analyzed_at.isoformat()` is kept as the numeric timestamp. -/
def mkAnalysisResponse (a : AnalysisResult) : AnalysisResponse :=
  { id := a.id
    assignment_id := a.assignment_id
    original_summary := a.original_summary
    suggested_sources := a.suggested_sources
    plagiarism_score := a.plagiarism_score
    flagged_sections := a.flagged_sections
    research_suggestions := a.research_suggestions
    citation_recommendations := a.citation_recommendations
    confidence_score := a.confidence_score
    analyzed_at := a.analyzed_at }

/-- The owning-assignment lookup of `main.py` line 368: a NULL
`assignment_id` matches no row, since `Assignment.id` is a non-null
primary key and `Assignment.id == None` is `id IS NULL`. -/
def owningAssignment (dbAssignments : List Assignment) (analysis : AnalysisResult) :
    Option Assignment :=
  match analysis.assignment_id with
  | none => none
  | some aid => dbAssignments.find? (fun g => g.id == aid)

/-- `GET /analysis/(analysis_id)` (`main.py` lines 352-386): find the
analysis row, 404 when absent; then line 369 turns BOTH a missing owning
assignment and an ownership mismatch into the one 403. -/
def get_analysis (dbAnalyses : List AnalysisResult) (dbAssignments : List Assignment)
    (analysis_id : Nat) (current_student : Student) :
    Except HTTPError AnalysisResponse :=
  match dbAnalyses.find? (fun a => a.id == analysis_id) with
  | none => .error ⟨404, "Analysis not found"⟩
  | some analysis =>
    match owningAssignment dbAssignments analysis with
    | none => .error ⟨403, "Access denied"⟩
    | some assignment =>
      if assignment.student_id ≠ some current_student.id then
        .error ⟨403, "Access denied"⟩
      else
        .ok (mkAnalysisResponse analysis)

/-- `order_by(analyzed_at.desc()).first()`: PostgreSQL sorts `DESC NULLS
FIRST`, so a row with a NULL timestamp outranks any timestamped row; tie
order among equal keys is unspecified in SQL and resolved here by
keeping the earlier row of the list. -/
def analyzedDescGE (x y : AnalysisResult) : Bool :=
  match x.analyzed_at, y.analyzed_at with
  | none, _ => true
  | some _, none => false
  | some tx, some ty => ty ≤ tx

/-- First row of the filtered analyses under the descending order. -/
def latestAnalysis (rows : List AnalysisResult) : Option AnalysisResult :=
  rows.foldl
    (fun acc r =>
      match acc with
      | none => some r
      | some a => if analyzedDescGE a r then some a else some r)
    none

/-- `GET /assignments/(assignment_id)/analysis` (`main.py` lines
390-437): 404 when the assignment is missing, 403 when it is not owned
by the requester, then the latest analysis row for the assignment, 404
with the in-progress wording when none exists. -/
def get_analysis_by_assignment (dbAnalyses : List AnalysisResult)
    (dbAssignments : List Assignment) (assignment_id : Nat)
    (current_student : Student) : Except HTTPError AnalysisResponse :=
  match dbAssignments.find? (fun g => g.id == assignment_id) with
  | none => .error ⟨404, "Assignment not found"⟩
  | some assignment =>
    if assignment.student_id ≠ some current_student.id then
      .error ⟨403, "Access denied"⟩
    else
      match latestAnalysis
          (dbAnalyses.filter (fun a => a.assignment_id == some assignment_id)) with
      | none =>
        .error ⟨404, "Analysis not found. The assignment may still be processing. Please wait a few moments and try again."⟩
      | some analysis => .ok (mkAnalysisResponse analysis)

/-! ### RAG similarity search (`backend/rag_service.py` lines 34-159)

Two external collaborators are passed in as parameters:
`embed` stands for `generate_embedding` (the OpenAI call of lines 16-31,
which either returns a vector or raises with a message), and `dist`
stands for pgvector's cosine-distance operator `<=>` used in the SQL of
lines 103-117 (`dist stored query` is the cosine distance between a
stored embedding and the query embedding).  The SQL selects the rows
`WHERE embedding IS NOT NULL`, orders them ascending by
`embedding <=> query` — tie order among equal distances is unspecified
in SQL and resolved here by a stable sort — applies `LIMIT top_k`, and
computes `similarity = 1 - (embedding <=> query)` per row.  The
`relevance` dict entry is the percent-formatted rendering of the same
`similarity` number and is not modelled separately. -/

/-- A dict of the list returned by `search_similar_sources`
(`rag_service.py` lines 140-150). -/
structure SourceDict where
  id : Nat
  title : String
  authors : Option String
  publication_year : Option Int
  abstract : Option String
  source_type : Option String
  url : Option String
  similarity : ℚ
deriving DecidableEq, Repr

/-- The failure conditions `search_similar_sources` itself raises before
reaching the rows: the empty-corpus check of lines 61-63 and a failure
of `generate_embedding` (line 71).  Line 159 re-wraps either in a
generic exception carrying the message, preserved here by constructor. -/
inductive SearchError where
  | emptyCorpus
  | embeddingFailure (msg : String)
deriving DecidableEq, Repr

/-- The message of `SearchError.emptyCorpus` (line 63). -/
def SearchError.message : SearchError → String
  | .emptyCorpus =>
    "No academic sources found in database. Please load sample sources from data/sample_academic_sources.json"
  | .embeddingFailure msg => "Error generating embedding: " ++ msg

set_option linter.unusedVariables false in
/-- `search_similar_sources` (`rag_service.py` lines 34-159).  The
`threshold` parameter is received (line 38) but, as of lines 133-151,
never used: all `top_k` rows are returned. -/
def search_similar_sources (db : List AcademicSource)
    (embed : String → Except String (List ℚ)) (dist : List ℚ → List ℚ → ℚ)
    (query_text : String) (top_k : Nat := 5) (threshold : ℚ := 1/2) :
    Except SearchError (List SourceDict) :=
  if db.length = 0 then .error .emptyCorpus
  else
    match embed query_text with
    | .error e => .error (.embeddingFailure e)
    | .ok query_embedding =>
      let rows : List (AcademicSource × List ℚ) :=
        db.filterMap (fun s => s.embedding.map (fun e => (s, e)))
      let sorted := rows.insertionSort
        (fun a b => dist a.2 query_embedding ≤ dist b.2 query_embedding)
      let top := sorted.take top_k
      .ok (top.map (fun r =>
        { id := r.1.id
          title := r.1.title
          authors := r.1.authors
          publication_year := r.1.publication_year
          abstract := r.1.abstract
          source_type := r.1.source_type
          url := r.1.url
          similarity := 1 - dist r.2 query_embedding }))

/-! ## Claims -/

/-- C3: for every password whose UTF-8 encoding is at most 72 bytes,
`verify_password(P, get_password_hash(P))` is true; for a longer
password, verification succeeds both with the original password and with
its 72-byte truncation, because both paths truncate the bytes at 72
identically. -/
theorem c3_truncation_symmetry :
    (∀ (P : List Nat) (salt : Nat), P.length ≤ 72 →
      verify_password P (get_password_hash P salt) = true) ∧
    (∀ (P : List Nat) (salt : Nat), 72 < P.length →
      verify_password P (get_password_hash P salt) = true ∧
      verify_password (P.take 72) (get_password_hash P salt) = true) := by
  refine ⟨fun P salt _ => ?_, fun P salt _ => ⟨?_, ?_⟩⟩
  · exact (verify_password_hash_iff P P salt).mpr rfl
  · exact (verify_password_hash_iff P P salt).mpr rfl
  · refine (verify_password_hash_iff (P.take 72) P salt).mpr ?_
    simp [List.take_take]

/-- Witness for C3 at the 10-byte password `aaaaaaaaaa` and the 80-byte
password of 80 `a` bytes. -/
theorem c3_truncation_symmetry_witness :
    verify_password (List.replicate 10 97)
      (get_password_hash (List.replicate 10 97) 3) = true ∧
    (verify_password (List.replicate 80 97)
        (get_password_hash (List.replicate 80 97) 4) = true ∧
      verify_password ((List.replicate 80 97).take 72)
        (get_password_hash (List.replicate 80 97) 4) = true) :=
  ⟨c3_truncation_symmetry.1 (List.replicate 10 97) 3 (by decide),
    c3_truncation_symmetry.2 (List.replicate 80 97) 4 (by decide)⟩

/-- C9: two passwords whose UTF-8 encodings agree on their first 72
bytes are indistinguishable: the second verifies against the hash of the
first. -/
theorem c9_prefix72_indistinguishable :
    ∀ (P1 P2 : List Nat) (salt : Nat), P1.take 72 = P2.take 72 →
      verify_password P2 (get_password_hash P1 salt) = true :=
  fun P1 P2 salt h => (verify_password_hash_iff P2 P1 salt).mpr h.symm

/-- Witness for C9: 73 `a` bytes versus 72 `a` bytes followed by a `b`
byte — they agree on the first 72 bytes and cross-verify. -/
theorem c9_prefix72_indistinguishable_witness :
    verify_password (List.replicate 72 97 ++ [98])
      (get_password_hash (List.replicate 73 97) 5) = true :=
  c9_prefix72_indistinguishable (List.replicate 73 97)
    (List.replicate 72 97 ++ [98]) 5 (by decide)

/-- C8: when the old password verifies, the new password has length at
least 6, and the new password still verifies against the current stored
hash, change-password returns the 400 ValidationError and leaves the
stored row unchanged. -/
theorem c8_change_password_same_rejected :
    ∀ (old_password new_password : List Nat) (current_student : Student) (salt : Nat),
      verify_password old_password current_student.password_hash = true →
      6 ≤ new_password.length →
      verify_password new_password current_student.password_hash = true →
      change_password old_password new_password current_student salt =
        (.error ⟨400, "New password must be different from current password"⟩,
          current_student) := by
  intro old_password new_password current_student salt hold hlen hnew
  unfold change_password
  simp [hold, hnew, Nat.not_lt.mpr hlen]

/-- Witness for C8: the 6-byte password `abcdef` changed to itself. -/
theorem c8_change_password_same_rejected_witness :
    change_password [97, 98, 99, 100, 101, 102] [97, 98, 99, 100, 101, 102]
        { id := 1, email := "x@y.z",
          password_hash := get_password_hash [97, 98, 99, 100, 101, 102] 0,
          full_name := none, student_id := none, created_at := 0 } 9 =
      (.error ⟨400, "New password must be different from current password"⟩,
        { id := 1, email := "x@y.z",
          password_hash := get_password_hash [97, 98, 99, 100, 101, 102] 0,
          full_name := none, student_id := none, created_at := 0 }) :=
  c8_change_password_same_rejected _ _ _ 9 (by decide) (by decide) (by decide)

/-- C2: a token minted by `create_access_token` for a subject whose
account exists validates, strictly before its expiry instant, to that
account; at or after the expiry instant — and equally for a bad
signature or a missing `sub` claim — validation yields the one 401
`credentials_exception`. -/
theorem c2_token_lifecycle :
    (∀ (db : List Student) (s : String) (acct : Student)
        (tIssue now : Nat) (delta : Option Nat),
      db.find? (fun st => st.email == s) = some acct →
      now < (create_access_token tIssue ⟨some s⟩ delta).claims.exp →
      get_current_student db now (create_access_token tIssue ⟨some s⟩ delta) =
        .ok acct) ∧
    (∀ (db : List Student) (now : Nat) (t : Jwt), t.claims.exp ≤ now →
      get_current_student db now t = .error credentialsException) ∧
    (∀ (db : List Student) (now : Nat) (t : Jwt),
      t.sig ≠ ⟨JWT_SECRET_KEY, t.claims⟩ →
      get_current_student db now t = .error credentialsException) ∧
    (∀ (db : List Student) (now : Nat) (t : Jwt), t.claims.sub = none →
      get_current_student db now t = .error credentialsException) ∧
    credentialsException.status = 401 := by
  refine ⟨?_, ?_, ?_, ?_, rfl⟩
  · intro db s acct tIssue now delta hfind hexp
    simp only [create_access_token] at hexp ⊢
    simp [get_current_student, jwtDecode, Nat.not_le.mpr hexp, hfind]
  · intro db now t hexp
    by_cases hsig : t.sig = (⟨JWT_SECRET_KEY, t.claims⟩ : JwtSignature)
    · simp [get_current_student, jwtDecode, hsig, hexp]
    · simp [get_current_student, jwtDecode, hsig]
  · intro db now t hsig
    simp [get_current_student, jwtDecode, hsig]
  · intro db now t hsub
    by_cases hsig : t.sig = (⟨JWT_SECRET_KEY, t.claims⟩ : JwtSignature)
    · by_cases hexp : t.claims.exp ≤ now
      · simp [get_current_student, jwtDecode, hsig, hexp]
      · simp [get_current_student, jwtDecode, hsig, hexp, hsub]
    · simp [get_current_student, jwtDecode, hsig]

/-- Witness for C2: a token minted at time 0 for `a@b.c` (default
24-hour expiry, so `exp = 86400`) validates at time 5 to the stored
account, and an arbitrary token is rejected at a time past its expiry. -/
theorem c2_token_lifecycle_witness :
    get_current_student
        [{ id := 1, email := "a@b.c", password_hash := ⟨[], 0⟩,
           full_name := none, student_id := none, created_at := 0 }]
        5 (create_access_token 0 ⟨some "a@b.c"⟩ none) =
      .ok { id := 1, email := "a@b.c", password_hash := ⟨[], 0⟩,
            full_name := none, student_id := none, created_at := 0 } ∧
    get_current_student
        [{ id := 1, email := "a@b.c", password_hash := ⟨[], 0⟩,
           full_name := none, student_id := none, created_at := 0 }]
        86400 (create_access_token 0 ⟨some "a@b.c"⟩ none) =
      .error credentialsException :=
  ⟨c2_token_lifecycle.1 _ "a@b.c" _ 0 5 none (by decide) (by decide),
    c2_token_lifecycle.2.1 _ 86400 _ (by decide)⟩

/-! ### Hash-blindness of token validation (C10) -/

/-- Two student rows that agree on everything except possibly the stored
password hash. -/
def sameIdentity (a b : Student) : Prop :=
  a.id = b.id ∧ a.email = b.email ∧ a.full_name = b.full_name ∧
  a.student_id = b.student_id ∧ a.created_at = b.created_at

/-- Two credential stores differing at most in password-hash fields. -/
def hashOnlyDiff (db1 db2 : List Student) : Prop :=
  List.Forall₂ sameIdentity db1 db2

theorem find?_email_congr {db1 db2 : List Student}
    (h : hashOnlyDiff db1 db2) (email : String) :
    (db1.find? (fun s => s.email == email) = none ∧
      db2.find? (fun s => s.email == email) = none) ∨
    (∃ s1 s2, db1.find? (fun s => s.email == email) = some s1 ∧
      db2.find? (fun s => s.email == email) = some s2 ∧ sameIdentity s1 s2) := by
  induction h with
  | nil => exact .inl ⟨rfl, rfl⟩
  | @cons a b l1 l2 hab htail ih =>
    by_cases he : a.email = email
    · have hb : b.email = email := hab.2.1.symm.trans he
      exact .inr ⟨a, b, by simp [List.find?, he], by simp [List.find?, hb], hab⟩
    · have hb : ¬ b.email = email := fun hx => he (hab.2.1.trans hx)
      rw [List.find?_cons_of_neg _ (by simpa using he),
        List.find?_cons_of_neg _ (by simpa using hb)]
      exact ih

/-- C10: token validation never reads the stored password hash — on any
two credential stores differing only in password-hash fields it fails
identically or resolves to rows with the same identity; and replacing
one account's hash (what a successful change- or reset-password does to
the store) produces exactly such a store, so previously issued unexpired
tokens keep validating to the same account. -/
theorem c10_validation_hash_blind :
    (∀ (db1 db2 : List Student), hashOnlyDiff db1 db2 →
      ∀ (now : Nat) (t : Jwt),
        (get_current_student db1 now t = .error credentialsException ∧
          get_current_student db2 now t = .error credentialsException) ∨
        (∃ s1 s2, get_current_student db1 now t = .ok s1 ∧
          get_current_student db2 now t = .ok s2 ∧ sameIdentity s1 s2)) ∧
    (∀ (db : List Student) (i : Nat) (h : BcryptHash),
      hashOnlyDiff db
        (db.map (fun s => if s.id = i then { s with password_hash := h } else s))) := by
  constructor
  · intro db1 db2 hdb now t
    unfold get_current_student
    cases jwtDecode JWT_SECRET_KEY now t with
    | error e => exact .inl ⟨rfl, rfl⟩
    | ok payload =>
      cases hsub : payload.sub with
      | none => exact .inl ⟨by simp [hsub], by simp [hsub]⟩
      | some email =>
        rcases find?_email_congr hdb email with ⟨h1, h2⟩ | ⟨s1, s2, h1, h2, hs⟩
        · exact .inl ⟨by simp [hsub, h1], by simp [hsub, h2]⟩
        · exact .inr ⟨s1, s2, by simp [hsub, h1], by simp [hsub, h2], hs⟩
  · intro db i h
    rw [hashOnlyDiff, List.forall₂_map_right_iff, List.forall₂_same]
    intro s _
    by_cases hid : s.id = i <;> simp [hid, sameIdentity]

/-- Witness for C10: two one-row stores with different hashes for the
same account, and the map form produced by a hash replacement. -/
theorem c10_validation_hash_blind_witness :
    ((get_current_student
        [{ id := 1, email := "a@b.c", password_hash := ⟨[1], 0⟩,
           full_name := none, student_id := none, created_at := 0 }]
        5 (create_access_token 0 ⟨some "a@b.c"⟩ none) =
          .error credentialsException ∧
      get_current_student
        [{ id := 1, email := "a@b.c", password_hash := ⟨[2], 7⟩,
           full_name := none, student_id := none, created_at := 0 }]
        5 (create_access_token 0 ⟨some "a@b.c"⟩ none) =
          .error credentialsException) ∨
    (∃ s1 s2,
      get_current_student
        [{ id := 1, email := "a@b.c", password_hash := ⟨[1], 0⟩,
           full_name := none, student_id := none, created_at := 0 }]
        5 (create_access_token 0 ⟨some "a@b.c"⟩ none) = .ok s1 ∧
      get_current_student
        [{ id := 1, email := "a@b.c", password_hash := ⟨[2], 7⟩,
           full_name := none, student_id := none, created_at := 0 }]
        5 (create_access_token 0 ⟨some "a@b.c"⟩ none) = .ok s2 ∧
      sameIdentity s1 s2)) ∧
    hashOnlyDiff
      [{ id := 1, email := "a@b.c", password_hash := ⟨[1], 0⟩,
         full_name := none, student_id := none, created_at := 0 }]
      ([({ id := 1, email := "a@b.c", password_hash := ⟨[1], 0⟩,
           full_name := none, student_id := none, created_at := 0 } : Student)].map
        (fun s => if s.id = 1 then { s with password_hash := ⟨[2], 7⟩ } else s)) :=
  ⟨c10_validation_hash_blind.1
      [{ id := 1, email := "a@b.c", password_hash := ⟨[1], 0⟩,
         full_name := none, student_id := none, created_at := 0 }]
      [{ id := 1, email := "a@b.c", password_hash := ⟨[2], 7⟩,
         full_name := none, student_id := none, created_at := 0 }]
      (by exact List.Forall₂.cons ⟨rfl, rfl, rfl, rfl, rfl⟩ List.Forall₂.nil)
      5 (create_access_token 0 ⟨some "a@b.c"⟩ none),
    c10_validation_hash_blind.2
      [{ id := 1, email := "a@b.c", password_hash := ⟨[1], 0⟩,
         full_name := none, student_id := none, created_at := 0 }]
      1 ⟨[2], 7⟩⟩

/-- C5: once extraction succeeds, the upload persists the assignment and
returns the success body whatever the webhook call does — the response
and resulting table are identical across all webhook outcomes, and the
persisted row is never rolled back. -/
theorem c5_webhook_failure_swallowed :
    ∀ (text_content filename : String) (current_student : Student)
      (db : List Assignment) (now : Nat) (o o2 : WebhookOutcome),
      (upload_assignment (.ok text_content) filename current_student db now o).1 =
        .ok { message := "Assignment uploaded successfully"
              assignment_id := nextAssignmentId db
              filename := filename
              word_count := count_words text_content
              status := "Analysis in progress" } ∧
      (∃ a ∈ (upload_assignment (.ok text_content) filename current_student db now o).2,
        a.student_id = some current_student.id ∧ a.filename = filename ∧
        a.original_text = text_content ∧ a.word_count = count_words text_content) ∧
      upload_assignment (.ok text_content) filename current_student db now o =
        upload_assignment (.ok text_content) filename current_student db now o2 := by
  intro text_content filename current_student db now o o2
  refine ⟨by cases o <;> rfl, ?_, by cases o <;> cases o2 <;> rfl⟩
  cases o <;>
    exact ⟨_, List.mem_append_right db (List.mem_singleton.mpr rfl),
      rfl, rfl, rfl, rfl⟩

/-- The descending-timestamp fold returns a row whenever any row is
present. -/
theorem latestAnalysis_cons_isSome (r : AnalysisResult) (rows : List AnalysisResult) :
    (latestAnalysis (r :: rows)).isSome := by
  suffices h : ∀ (l : List AnalysisResult) (a : AnalysisResult),
      (l.foldl
        (fun acc x =>
          match acc with
          | none => some x
          | some y => if analyzedDescGE y x then some y else some x)
        (some a)).isSome by
    simpa [latestAnalysis] using h rows r
  intro l
  induction l with
  | nil => intro a; rfl
  | cons x xs ih =>
    intro a
    by_cases hx : analyzedDescGE a x
    · simpa [hx] using ih a
    · simpa [hx] using ih x

/-- C4 counterexample: the claim predicts NotFound (404) whenever the
owning Assignment is missing, but `get_analysis` answers AccessDenied
(403) for an analysis row whose `assignment_id` is NULL (a schema-legal
row: the column is nullable), with an empty assignments table. -/
theorem c4_counterexample :
    get_analysis
        [{ id := 1, assignment_id := none, original_summary := none,
           suggested_sources := none, plagiarism_score := none,
           flagged_sections := none, research_suggestions := none,
           citation_recommendations := none, confidence_score := none,
           analyzed_at := none }] [] 1
        { id := 7, email := "s@e.x", password_hash := ⟨[], 0⟩,
          full_name := none, student_id := none, created_at := 0 } =
      .error ⟨403, "Access denied"⟩ ∧ (403 : Nat) ≠ 404 := by
  exact ⟨rfl, by decide⟩

/-- C4 amended: for `get_analysis` a missing AnalysisResult yields 404
while a missing owning Assignment is collapsed with ownership mismatch
into 403; for `get_analysis_by_assignment` a missing Assignment yields
404, an ownership mismatch 403, and a missing AnalysisResult the
in-progress 404; the 403 and 404 statuses are never conflated. -/
theorem c4_amended_error_kinds :
    (∀ (dbA : List AnalysisResult) (dbG : List Assignment) (aid : Nat) (cur : Student),
      dbA.find? (fun a => a.id == aid) = none →
      get_analysis dbA dbG aid cur = .error ⟨404, "Analysis not found"⟩) ∧
    (∀ (dbA : List AnalysisResult) (dbG : List Assignment) (aid : Nat) (cur : Student)
        (analysis : AnalysisResult),
      dbA.find? (fun a => a.id == aid) = some analysis →
      (owningAssignment dbG analysis = none ∨
        ∃ g, owningAssignment dbG analysis = some g ∧ g.student_id ≠ some cur.id) →
      get_analysis dbA dbG aid cur = .error ⟨403, "Access denied"⟩) ∧
    (∀ (dbA : List AnalysisResult) (dbG : List Assignment) (gid : Nat) (cur : Student),
      dbG.find? (fun g => g.id == gid) = none →
      get_analysis_by_assignment dbA dbG gid cur =
        .error ⟨404, "Assignment not found"⟩) ∧
    (∀ (dbA : List AnalysisResult) (dbG : List Assignment) (gid : Nat) (cur : Student)
        (g : Assignment),
      dbG.find? (fun g2 => g2.id == gid) = some g →
      g.student_id ≠ some cur.id →
      get_analysis_by_assignment dbA dbG gid cur = .error ⟨403, "Access denied"⟩) ∧
    (∀ (dbA : List AnalysisResult) (dbG : List Assignment) (gid : Nat) (cur : Student)
        (g : Assignment),
      dbG.find? (fun g2 => g2.id == gid) = some g →
      g.student_id = some cur.id →
      dbA.filter (fun a => a.assignment_id == some gid) = [] →
      get_analysis_by_assignment dbA dbG gid cur =
        .error ⟨404, "Analysis not found. The assignment may still be processing. Please wait a few moments and try again."⟩) ∧
    (∀ (dbA : List AnalysisResult) (dbG : List Assignment) (gid : Nat) (cur : Student)
        (g : Assignment),
      dbG.find? (fun g2 => g2.id == gid) = some g →
      g.student_id = some cur.id →
      dbA.filter (fun a => a.assignment_id == some gid) ≠ [] →
      ∃ analysis, get_analysis_by_assignment dbA dbG gid cur =
        .ok (mkAnalysisResponse analysis)) ∧
    (403 : Nat) ≠ 404 := by
  refine ⟨?_, ?_, ?_, ?_, ?_, ?_, by decide⟩
  · intro dbA dbG aid cur hfind
    simp [get_analysis, hfind]
  · intro dbA dbG aid cur analysis hfind howner
    rcases howner with h | ⟨g, hg, hmis⟩
    · simp [get_analysis, hfind, h]
    · simp [get_analysis, hfind, hg, hmis]
  · intro dbA dbG gid cur hfind
    simp [get_analysis_by_assignment, hfind]
  · intro dbA dbG gid cur g hfind hmis
    simp [get_analysis_by_assignment, hfind, hmis]
  · intro dbA dbG gid cur g hfind hown hfilter
    simp [get_analysis_by_assignment, hfind, hown, hfilter, latestAnalysis]
  · intro dbA dbG gid cur g hfind hown hfilter
    rcases hl : dbA.filter (fun a => a.assignment_id == some gid) with _ | ⟨r, rows⟩
    · exact absurd hl hfilter
    · rcases hsome : latestAnalysis (r :: rows) with _ | a
      · exact absurd (hsome ▸ latestAnalysis_cons_isSome r rows) (by simp)
      · exact ⟨a, by simp [get_analysis_by_assignment, hfind, hown, hl, hsome]⟩

/-- Witness for C4 amended: a store with one assignment (owner 7) and
one analysis; the missing-analysis 404 of `get_analysis`, the 403 of a
NULL owning assignment, and the mismatch 403 of
`get_analysis_by_assignment` for requester 8. -/
theorem c4_amended_error_kinds_witness :
    get_analysis [] [] 3
        { id := 7, email := "s@e.x", password_hash := ⟨[], 0⟩,
          full_name := none, student_id := none, created_at := 0 } =
      .error ⟨404, "Analysis not found"⟩ ∧
    get_analysis
        [{ id := 1, assignment_id := none, original_summary := none,
           suggested_sources := none, plagiarism_score := none,
           flagged_sections := none, research_suggestions := none,
           citation_recommendations := none, confidence_score := none,
           analyzed_at := none }] [] 1
        { id := 7, email := "s@e.x", password_hash := ⟨[], 0⟩,
          full_name := none, student_id := none, created_at := 0 } =
      .error ⟨403, "Access denied"⟩ ∧
    get_analysis_by_assignment []
        [{ id := 2, student_id := some 7, filename := "f.txt",
           original_text := "", topic := none, academic_level := none,
           word_count := 0, uploaded_at := 0 }] 2
        { id := 8, email := "t@e.x", password_hash := ⟨[], 0⟩,
          full_name := none, student_id := none, created_at := 0 } =
      .error ⟨403, "Access denied"⟩ :=
  ⟨c4_amended_error_kinds.1 [] [] 3
      { id := 7, email := "s@e.x", password_hash := ⟨[], 0⟩,
        full_name := none, student_id := none, created_at := 0 } (by decide),
    c4_amended_error_kinds.2.1
      [{ id := 1, assignment_id := none, original_summary := none,
         suggested_sources := none, plagiarism_score := none,
         flagged_sections := none, research_suggestions := none,
         citation_recommendations := none, confidence_score := none,
         analyzed_at := none }] [] 1
      { id := 7, email := "s@e.x", password_hash := ⟨[], 0⟩,
        full_name := none, student_id := none, created_at := 0 }
      { id := 1, assignment_id := none, original_summary := none,
        suggested_sources := none, plagiarism_score := none,
        flagged_sections := none, research_suggestions := none,
        citation_recommendations := none, confidence_score := none,
        analyzed_at := none } (by decide) (.inl rfl),
    c4_amended_error_kinds.2.2.2.1 []
      [{ id := 2, student_id := some 7, filename := "f.txt",
         original_text := "", topic := none, academic_level := none,
         word_count := 0, uploaded_at := 0 }] 2
      { id := 8, email := "t@e.x", password_hash := ⟨[], 0⟩,
        full_name := none, student_id := none, created_at := 0 }
      { id := 2, student_id := some 7, filename := "f.txt",
        original_text := "", topic := none, academic_level := none,
        word_count := 0, uploaded_at := 0 } (by decide) (by decide)⟩

/-- C1: a successful search returns at most `top_k` entries, ordered by
non-increasing similarity, and each similarity is 1 minus the (cosine)
distance between the stored embedding of a corpus row and the query
embedding. -/
theorem c1_search_topk_ranked :
    ∀ (db : List AcademicSource) (embed : String → Except String (List ℚ))
      (dist : List ℚ → List ℚ → ℚ) (query_text : String) (top_k : Nat)
      (threshold : ℚ) (l : List SourceDict),
      search_similar_sources db embed dist query_text top_k threshold = .ok l →
      l.length ≤ top_k ∧
      l.Pairwise (fun a b => b.similarity ≤ a.similarity) ∧
      ∃ qe, embed query_text = .ok qe ∧
        ∀ e ∈ l, ∃ src emb, src ∈ db ∧ src.embedding = some emb ∧
          e.id = src.id ∧ e.similarity = 1 - dist emb qe := by
  intro db embed dist query_text top_k threshold l h
  unfold search_similar_sources at h
  by_cases hdb : db.length = 0
  · rw [if_pos hdb] at h
    exact absurd h (by simp)
  · rw [if_neg hdb] at h
    cases hq : embed query_text with
    | error e =>
      rw [hq] at h
      exact absurd h (by simp)
    | ok qe =>
      rw [hq] at h
      simp only [Except.ok.injEq] at h
      subst h
      have hsorted :
          ((db.filterMap (fun s => s.embedding.map (fun e => (s, e)))).insertionSort
            (fun a b => dist a.2 qe ≤ dist b.2 qe)).Sorted
            (fun a b => dist a.2 qe ≤ dist b.2 qe) := by
        haveI : IsTotal (AcademicSource × List ℚ)
            (fun a b => dist a.2 qe ≤ dist b.2 qe) := ⟨fun _ _ => le_total _ _⟩
        haveI : IsTrans (AcademicSource × List ℚ)
            (fun a b => dist a.2 qe ≤ dist b.2 qe) :=
          ⟨fun _ _ _ h1 h2 => le_trans h1 h2⟩
        exact List.sorted_insertionSort _ _
      refine ⟨?_, ?_, qe, rfl, ?_⟩
      · simp only [List.length_map, List.length_take]
        exact min_le_left top_k _
      · refine List.pairwise_map.mpr ?_
        refine ((hsorted.sublist (List.take_sublist top_k _)).imp ?_)
        intro a b hab
        simpa using sub_le_sub_left hab 1
      · intro e he
        obtain ⟨r, hr, rfl⟩ := List.mem_map.mp he
        have hr2 := (List.mem_insertionSort _).mp (List.mem_of_mem_take hr)
        obtain ⟨src, hsrc, hmap⟩ := List.mem_filterMap.mp hr2
        obtain ⟨emb, hemb, heq⟩ := Option.map_eq_some'.mp hmap
        refine ⟨src, emb, hsrc, hemb, ?_, ?_⟩
        · rw [← heq]
        · rw [← heq]

/-- Witness for C1: a two-row corpus with embeddings `[2]` and `[1]`,
the constant embedder returning `[1]` and the first-component-product
distance; the results come back ranked `[1]` before `[2]`. -/
theorem c1_search_topk_ranked_witness :
    ([({ id := 2, title := "B", authors := none, publication_year := none,
         abstract := none, source_type := none, url := none,
         similarity := 0 } : SourceDict),
      { id := 1, title := "A", authors := none, publication_year := none,
        abstract := none, source_type := none, url := none,
        similarity := -1 }].length ≤ 5) ∧
    ([({ id := 2, title := "B", authors := none, publication_year := none,
         abstract := none, source_type := none, url := none,
         similarity := 0 } : SourceDict),
      { id := 1, title := "A", authors := none, publication_year := none,
        abstract := none, source_type := none, url := none,
        similarity := -1 }].Pairwise (fun a b => b.similarity ≤ a.similarity)) ∧
    ∃ qe, (fun _ => (.ok [(1 : ℚ)] : Except String (List ℚ))) "q" = .ok qe ∧
      ∀ e ∈ [({ id := 2, title := "B", authors := none, publication_year := none,
                abstract := none, source_type := none, url := none,
                similarity := 0 } : SourceDict),
             { id := 1, title := "A", authors := none, publication_year := none,
               abstract := none, source_type := none, url := none,
               similarity := -1 }],
        ∃ src emb,
          src ∈ [({ id := 1, title := "A", authors := none,
                    publication_year := none, abstract := none,
                    full_text := none, source_type := none, url := none,
                    embedding := some [2] } : AcademicSource),
                 { id := 2, title := "B", authors := none,
                   publication_year := none, abstract := none,
                   full_text := none, source_type := none, url := none,
                   embedding := some [1] }] ∧
          src.embedding = some emb ∧ e.id = src.id ∧
          e.similarity = 1 - (fun (a b : List ℚ) => a.headD 0 * b.headD 0) emb qe :=
  c1_search_topk_ranked
    [{ id := 1, title := "A", authors := none, publication_year := none,
       abstract := none, full_text := none, source_type := none, url := none,
       embedding := some [2] },
     { id := 2, title := "B", authors := none, publication_year := none,
       abstract := none, full_text := none, source_type := none, url := none,
       embedding := some [1] }]
    (fun _ => .ok [(1 : ℚ)]) (fun a b => a.headD 0 * b.headD 0) "q" 5 (1/2)
    [{ id := 2, title := "B", authors := none, publication_year := none,
       abstract := none, source_type := none, url := none, similarity := 0 },
     { id := 1, title := "A", authors := none, publication_year := none,
       abstract := none, source_type := none, url := none, similarity := -1 }]
    (by norm_num [search_similar_sources, List.insertionSort, List.orderedInsert,
      List.filterMap])

/-- C6: a search over an empty corpus signals the distinct EmptyCorpus
condition; a non-empty corpus never produces that condition, and the
condition is a different value from an empty result list. -/
theorem c6_empty_corpus_distinct :
    (∀ (embed : String → Except String (List ℚ))
        (dist : List ℚ → List ℚ → ℚ) (query_text : String) (top_k : Nat)
        (threshold : ℚ),
      search_similar_sources [] embed dist query_text top_k threshold =
        .error .emptyCorpus) ∧
    (∀ (db : List AcademicSource) (embed : String → Except String (List ℚ))
        (dist : List ℚ → List ℚ → ℚ) (query_text : String) (top_k : Nat)
        (threshold : ℚ), db ≠ [] →
      search_similar_sources db embed dist query_text top_k threshold ≠
        .error .emptyCorpus) ∧
    (Except.error SearchError.emptyCorpus : Except SearchError (List SourceDict)) ≠
      .ok [] := by
  refine ⟨fun embed dist q k t => rfl, ?_, by simp⟩
  intro db embed dist q k t hdb
  unfold search_similar_sources
  rw [if_neg (by simpa [List.length_eq_zero] using hdb)]
  cases embed q <;> simp

/-- Witness for C6: the one-row corpus never reports EmptyCorpus. -/
theorem c6_empty_corpus_distinct_witness :
    search_similar_sources
        [{ id := 1, title := "A", authors := none, publication_year := none,
           abstract := none, full_text := none, source_type := none,
           url := none, embedding := some [2] }]
        (fun _ => .ok [(1 : ℚ)]) (fun a b => a.headD 0 * b.headD 0) "q" 5 (1/2) ≠
      .error .emptyCorpus :=
  c6_empty_corpus_distinct.2.1
    [{ id := 1, title := "A", authors := none, publication_year := none,
       abstract := none, full_text := none, source_type := none,
       url := none, embedding := some [2] }]
    (fun _ => .ok [(1 : ℚ)]) (fun a b => a.headD 0 * b.headD 0) "q" 5 (1/2)
    (by simp)

/-- C7: the relevance floor is advisory only — the returned list does
not depend on the threshold argument at all. -/
theorem c7_threshold_advisory :
    ∀ (db : List AcademicSource) (embed : String → Except String (List ℚ))
      (dist : List ℚ → List ℚ → ℚ) (query_text : String) (top_k : Nat)
      (t1 t2 : ℚ),
      search_similar_sources db embed dist query_text top_k t1 =
        search_similar_sources db embed dist query_text top_k t2 :=
  fun _ _ _ _ _ _ _ => rfl

end AcademicHelper
